import Mathlib

/-!
Shallow embedding of the strongSwan `openssl_pkcs7.c` PKCS#7/CMS container
verifier.

The embedded source is the container plugin built on the OpenSSL CMS API:
the `parse` / `openssl_pkcs7_load` constructors, the container accessors
`get_type`, `get_data`, `get_encoding`, the per-signer helpers
`verify_signature` and `verify_digest`, and the lazy signature enumerator
(`create_signature_enumerator`, `signature_enumerate`, `signature_destroy`).

External collaborators (the OpenSSL DER decoder, the `asn1_wrap` re-encoder,
the credential-manager trust store, hashers and public-key verification)
are modelled as an explicit environment `Env` of abstract functions, exactly
at the call boundaries the C source uses.  Byte strings (`chunk_t`,
`ASN1_OCTET_STRING` contents) are `List Nat`; opaque handles
(`identification_t`, `public_key_t`, `auth_cfg_t`, `X509_NAME`,
`ASN1_OBJECT`) are `Nat`.  `DBG1` log lines are reified as an inductive
`LogMsg` so that the distinct per-signer diagnostics are observable.
-/

namespace OpensslPkcs7

/-- Authorization context (`auth_cfg_t`), opaque to this plugin; `clone`
returns an equal value. -/
abbrev auth_cfg_t := Nat

/-- Trusted certificate view: the two accessors the source uses,
`get_issuer` (an `identification_t`) and `get_public_key`
(which may return NULL). -/
structure certificate_t where
  issuer : Nat
  public_key : Option Nat
deriving DecidableEq, Repr

/-- One decoded `X509_ATTRIBUTE`: its type object and its set of values,
each value an ASN.1 (type, contents) pair. -/
structure X509_ATTRIBUTE where
  obj : Nat
  values : List (Nat × List Nat)
deriving DecidableEq, Repr

/-- Internal `CMS_SignerInfo_st` view, as declared in the source to reach
the fields the public OpenSSL API hides.  `signer_id` is the result of
`CMS_SignerInfo_get0_signer_id`: `some (name, serial)` on success
(issuer-and-serial form), `none` on failure.  The two algorithm fields hold
the `ASN1_OBJECT` of the corresponding `X509_ALGOR`. -/
structure CMS_SignerInfo where
  signer_id : Option (Nat × List Nat)
  digestAlgorithm : Nat
  signatureAlgorithm : Nat
  signedAttrs : List X509_ATTRIBUTE
  signature : List Nat
deriving DecidableEq, Repr

/-- Decoded `CMS_ContentInfo`: the content-type `ASN1_OBJECT`
(`CMS_get0_type`), the embedded content octet string (`CMS_get0_content`;
`none` models a NULL result), and the SignerInfo stack
(`CMS_get0_SignerInfos`; `none` models a NULL stack). -/
structure CMS_ContentInfo where
  type_obj : Nat
  content : Option (List Nat)
  signerInfos : Option (List CMS_SignerInfo)
deriving DecidableEq, Repr

/-- Container types assigned by `parse` (subset of `container_type_t`);
`CONTAINER_OTHER` stands for every other enumerator of the C type. -/
inductive container_type_t where
  | CONTAINER_PKCS7_DATA
  | CONTAINER_PKCS7_SIGNED_DATA
  | CONTAINER_PKCS7_ENVELOPED_DATA
  | CONTAINER_OTHER
deriving DecidableEq, Repr

/-- Private data of an `openssl_pkcs7_t` object: the type tag assigned at
parse time and the decoded CMS structure. -/
structure private_openssl_pkcs7_t where
  type : container_type_t
  cms : CMS_ContentInfo
deriving DecidableEq, Repr

/-- Reified `DBG1` diagnostics emitted by this source file. -/
inductive LogMsg where
  | onlyRsaDigestEncryptionSupported
  | unableToVerifyAttrsSignature
  | hashAlgNotSupported (alg : Nat)
  | invalidMessageDigest
deriving DecidableEq, Repr

/-- OID enumeration values from the generated `asn1/oid.h` table; the
concrete numbers are abstract, only their distinctness matters. -/
def OID_PKCS7_DATA : Int := 17

/-- OID enumeration value for signed-data. -/
def OID_PKCS7_SIGNED_DATA : Int := 18

/-- OID enumeration value for enveloped-data. -/
def OID_PKCS7_ENVELOPED_DATA : Int := 19

/-- OID enumeration value for RSA digest encryption. -/
def OID_RSA_ENCRYPTION : Int := 33

/-- OpenSSL `NID_pkcs9_messageDigest` object (the `ASN1_OBJECT` returned by
`OBJ_nid2obj`), used as the attribute lookup key. -/
def NID_pkcs9_messageDigest : Nat := 51

/-- OpenSSL `V_ASN1_OCTET_STRING` tag value. -/
def V_ASN1_OCTET_STRING : Nat := 4

/-- External collaborators of `openssl_pkcs7.c`, one field per call
boundary in the source. -/
structure Env where
  /-- `openssl_asn1_known_oid`: maps an `ASN1_OBJECT` to the library OID
  enumeration (or `OID_UNKNOWN`). -/
  known_oid : Nat → Int
  /-- `openssl_x509_name2id`: converts an `X509_NAME` to an
  `identification_t`, possibly failing. -/
  x509_name2id : Nat → Option Nat
  /-- `openssl_i2chunk(X509_ATTRIBUTE, ...)`: DER-encodes one attribute. -/
  i2chunk_attr : X509_ATTRIBUTE → List Nat
  /-- `asn1_wrap(0x31, "m", ...)`: wraps the concatenated attribute
  encodings into an ASN.1 SET. -/
  asn1_wrap_set : List Nat → List Nat
  /-- `lib->credmgr->create_trusted_enumerator(KEY_RSA, serial, FALSE)`:
  candidate (certificate, auth) pairs for a serial-number lookup key, in
  enumeration order. -/
  trusted : List Nat → List (certificate_t × auth_cfg_t)
  /-- `signature_scheme_from_oid`: scheme selected from the digest OID. -/
  signature_scheme_from_oid : Int → Nat
  /-- `key->verify(key, scheme, data, signature)`. -/
  verify : Nat → Nat → List Nat → List Nat → Bool
  /-- `hasher_algorithm_from_oid`. -/
  hasher_algorithm_from_oid : Int → Nat
  /-- `lib->crypto->create_hasher`: `none` when the algorithm is not
  supported; the returned hasher is `allocate_hash`, which may itself
  fail. -/
  create_hasher : Nat → Option (List Nat → Option (List Nat))
  /-- `d2i_CMS_bio` over a memory BIO: DER decoding of the blob. -/
  d2i_CMS : List Nat → Option CMS_ContentInfo

/-- Re-encode the signed attributes to DER, as in `verify_signature`:
`openssl_i2chunk` on each attribute in order, concatenated, then wrapped in
an ASN.1 SET by `asn1_wrap`. -/
def reencoded_attrs (env : Env) (si : CMS_SignerInfo) : List Nat :=
  env.asn1_wrap_set (si.signedAttrs.map env.i2chunk_attr).flatten

/-- Candidate test used by the trust-store scan in `verify_signature`:
the candidate's issuer equals the signer's claimed issuer, the candidate
has a public key, and that key verifies the re-encoded attribute bytes
against the raw signature. -/
def candidate_ok (env : Env) (issuer scheme : Nat) (attrs sig : List Nat)
    (ca : certificate_t × auth_cfg_t) : Bool :=
  issuer = ca.1.issuer &&
    match ca.1.public_key with
    | some key => env.verify key scheme attrs sig
    | none => false

/-- The candidate scan loop of `verify_signature`: walk the trusted
enumeration in order; skip a candidate whose issuer differs or whose public
key is absent; on the first candidate whose key verifies, clone and return
its authorization context and stop. -/
def find_candidate (env : Env) (issuer scheme : Nat) (attrs sig : List Nat) :
    List (certificate_t × auth_cfg_t) → Option auth_cfg_t
  | [] => none
  | (cert, auth) :: rest =>
    if issuer = cert.issuer then
      match cert.public_key with
      | some key =>
        if env.verify key scheme attrs sig then some auth
        else find_candidate env issuer scheme attrs sig rest
      | none => find_candidate env issuer scheme attrs sig rest
    else find_candidate env issuer scheme attrs sig rest

/-- `verify_signature`: extract the issuer+serial identity (failure of
either `CMS_SignerInfo_get0_signer_id` or `openssl_x509_name2id` returns
NULL), re-encode the signed attributes, and scan the trusted candidates for
the serial lookup key. -/
def verify_signature (env : Env) (si : CMS_SignerInfo) (hash_oid : Int) :
    Option auth_cfg_t :=
  match si.signer_id with
  | none => none
  | some (name, snr) =>
    match env.x509_name2id name with
    | none => none
    | some issuer =>
      find_candidate env issuer (env.signature_scheme_from_oid hash_oid)
        (reencoded_attrs env si) si.signature (env.trusted snr)

/-- `CMS_signed_get0_data_by_OBJ` with `lastpos = -3` and an expected ASN.1
type: succeeds only when exactly one attribute carries the object, that
attribute has exactly one value, and the value has the expected type. -/
def CMS_signed_get0_data_by_OBJ (attrs : List X509_ATTRIBUTE) (obj atype : Nat) :
    Option (List Nat) :=
  match attrs.filter (fun a => a.obj = obj) with
  | [a] =>
    match a.values with
    | [(t, v)] => if t = atype then some v else none
    | _ => none
  | _ => none

/-- `verify_digest`: look up the signer's `messageDigest` attribute, fetch
the container content, hash it with the algorithm mapped from the digest
OID, and compare byte-for-byte.  Returns the boolean result together with
the `DBG1` diagnostics emitted. -/
def verify_digest (env : Env) (cms : CMS_ContentInfo) (si : CMS_SignerInfo)
    (hash_oid : Int) : Bool × List LogMsg :=
  match CMS_signed_get0_data_by_OBJ si.signedAttrs NID_pkcs9_messageDigest
      V_ASN1_OCTET_STRING with
  | none => (false, [])
  | some digest =>
    match cms.content with
    | none => (false, [])
    | some content =>
      let hash_alg := env.hasher_algorithm_from_oid hash_oid
      match env.create_hasher hash_alg with
      | none => (false, [LogMsg.hashAlgNotSupported hash_alg])
      | some hasher =>
        match hasher content with
        | none => (false, [])
        | some hash =>
          if digest = hash then (true, [])
          else (false, [LogMsg.invalidMessageDigest])

/-- Signature enumerator state (`signature_enumerator_t`): the SignerInfo
stack (`none` when `CMS_get0_SignerInfos` returned NULL), the cursor `i`,
the in-flight authorization result `auth`, and the CMS structure. -/
structure signature_enumerator_t where
  signers : Option (List CMS_SignerInfo)
  i : Nat
  auth : Option auth_cfg_t
  cms : CMS_ContentInfo
deriving DecidableEq, Repr

/-- Result of running the `while` loop of `signature_enumerate` from one
cursor position: final cursor, final `this->auth` field, whether a result
was yielded, the authorization results destroyed by the per-round cleanup,
and the diagnostics logged. -/
structure LoopResult where
  i : Nat
  auth : Option auth_cfg_t
  yielded : Bool
  released : List auth_cfg_t
  logs : List LogMsg
deriving DecidableEq, Repr

/-- The `while (this->i < sk_CMS_SignerInfo_num(...))` loop body of
`signature_enumerate`, iterated over the remaining signers.  Each round
first destroys the previous in-flight result (`DESTROY_IF(this->auth)`),
takes the next signer and increments the cursor, skips it when its
signature algorithm is not RSA digest encryption, otherwise resolves the
signature and, on success, checks the digest binding; only a signer passing
both yields. -/
def enumerate_loop (env : Env) (cms : CMS_ContentInfo) :
    List CMS_SignerInfo → Nat → Option auth_cfg_t → LoopResult
  | [], i, auth0 => ⟨i, auth0, false, [], []⟩
  | si :: rest, i, auth0 =>
    let rel := auth0.toList
    let hash_oid := env.known_oid si.digestAlgorithm
    if env.known_oid si.signatureAlgorithm ≠ OID_RSA_ENCRYPTION then
      let r := enumerate_loop env cms rest (i + 1) none
      ⟨r.i, r.auth, r.yielded, rel ++ r.released,
        LogMsg.onlyRsaDigestEncryptionSupported :: r.logs⟩
    else
      match verify_signature env si hash_oid with
      | none =>
        let r := enumerate_loop env cms rest (i + 1) none
        ⟨r.i, r.auth, r.yielded, rel ++ r.released,
          LogMsg.unableToVerifyAttrsSignature :: r.logs⟩
      | some auth =>
        let vd := verify_digest env cms si hash_oid
        if vd.1 then ⟨i + 1, some auth, true, rel, vd.2⟩
        else
          let r := enumerate_loop env cms rest (i + 1) (some auth)
          ⟨r.i, r.auth, r.yielded, rel ++ r.released, vd.2 ++ r.logs⟩

/-- Observable effect of one `signature_enumerate` call: the successor
state, the yielded result (`none` models returning FALSE without writing
`*out`), the results released, and the diagnostics logged. -/
structure EnumStep where
  state : signature_enumerator_t
  out : Option auth_cfg_t
  released : List auth_cfg_t
  logs : List LogMsg
deriving DecidableEq, Repr

/-- `signature_enumerate`: returns FALSE immediately when the SignerInfo
stack is absent; otherwise runs the loop from the current cursor over the
remaining signers. -/
def signature_enumerate (env : Env) (this : signature_enumerator_t) :
    EnumStep :=
  match this.signers with
  | none => ⟨this, none, [], []⟩
  | some signers =>
    let r := enumerate_loop env this.cms (signers.drop this.i) this.i this.auth
    ⟨⟨some signers, r.i, r.auth, this.cms⟩,
      if r.yielded then r.auth else none, r.released, r.logs⟩

/-- `signature_destroy`: the authorization results released when the
enumerator is destroyed (`DESTROY_IF(this->auth)`). -/
def signature_destroy (this : signature_enumerator_t) : List auth_cfg_t :=
  this.auth.toList

/-- An enumerator handed out by `create_signature_enumerator`: either the
signature enumerator or `enumerator_create_empty()`. -/
inductive enumerator_t where
  | empty_enum
  | sig_enum (e : signature_enumerator_t)
deriving DecidableEq, Repr

/-- `create_signature_enumerator`: for a signed-data container, a fresh
signature enumerator over `CMS_get0_SignerInfos` with cursor 0 and no
in-flight result; for every other type, the empty enumerator. -/
def create_signature_enumerator (this : private_openssl_pkcs7_t) :
    enumerator_t :=
  if this.type = container_type_t.CONTAINER_PKCS7_SIGNED_DATA then
    .sig_enum ⟨this.cms.signerInfos, 0, none, this.cms⟩
  else .empty_enum

/-- One `enumerate` call on a handed-out enumerator: the empty enumerator
always reports end-of-sequence; the signature enumerator steps its state
machine. -/
def enumerate (env : Env) : enumerator_t → enumerator_t × Option auth_cfg_t
  | .empty_enum => (.empty_enum, none)
  | .sig_enum e =>
    let r := signature_enumerate env e
    (.sig_enum r.state, r.out)

/-- Results produced by repeatedly calling `enumerate` until it reports
end-of-sequence (or the fuel runs out), collected in order. -/
def enum_results (env : Env) : Nat → enumerator_t → List auth_cfg_t
  | 0, _ => []
  | fuel + 1, en =>
    match enumerate env en with
    | (en2, some a) => a :: enum_results env fuel en2
    | (_, none) => []

/-- Outcome of examining one signer inside the loop, as a function of the
per-signer checks: `some auth` exactly when the signer's signature
algorithm is RSA digest encryption, `verify_signature` resolves it to
`auth`, and `verify_digest` accepts the content binding. -/
def signer_result (env : Env) (cms : CMS_ContentInfo) (si : CMS_SignerInfo) :
    Option auth_cfg_t :=
  let hash_oid := env.known_oid si.digestAlgorithm
  if env.known_oid si.signatureAlgorithm = OID_RSA_ENCRYPTION then
    match verify_signature env si hash_oid with
    | some auth => if (verify_digest env cms si hash_oid).1 then some auth else none
    | none => none
  else none

/-- `get_type`: pure accessor for the type tag fixed by `parse`. -/
def get_type (this : private_openssl_pkcs7_t) : container_type_t :=
  this.type

/-- `get_data`: for data and signed-data containers with a present content
octet string, a copy of the content (`chunk_clone`); FALSE for
enveloped-data (decryption unsupported) and every other case. -/
def get_data (this : private_openssl_pkcs7_t) : Option (List Nat) :=
  match this.type with
  | .CONTAINER_PKCS7_DATA | .CONTAINER_PKCS7_SIGNED_DATA =>
    match this.cms.content with
    | some os => some os
    | none => none
  | .CONTAINER_PKCS7_ENVELOPED_DATA => none
  | .CONTAINER_OTHER => none

/-- `get_encoding`: always unavailable. -/
def get_encoding (_this : private_openssl_pkcs7_t) : Option (List Nat) :=
  none

/-- The two distinct failure exits of `parse`: `d2i_CMS_bio` returning NULL
(malformed DER) and the `default` arm of the content-type switch
(unrecognized type object). -/
inductive ParseFailure where
  | MalformedEncoding
  | UnsupportedContentType
deriving DecidableEq, Repr

/-- `parse`: decode the blob, then classify the content type by its OID;
each supported OID fixes the container's type tag, anything else fails. -/
def parse (env : Env) (blob : List Nat) :
    Except ParseFailure private_openssl_pkcs7_t :=
  match env.d2i_CMS blob with
  | none => .error .MalformedEncoding
  | some cms =>
    let oid := env.known_oid cms.type_obj
    if oid = OID_PKCS7_DATA then
      .ok ⟨.CONTAINER_PKCS7_DATA, cms⟩
    else if oid = OID_PKCS7_SIGNED_DATA then
      .ok ⟨.CONTAINER_PKCS7_SIGNED_DATA, cms⟩
    else if oid = OID_PKCS7_ENVELOPED_DATA then
      .ok ⟨.CONTAINER_PKCS7_ENVELOPED_DATA, cms⟩
    else .error .UnsupportedContentType

/-- Builder arguments consumed by `openssl_pkcs7_load`. -/
inductive builder_part_t where
  | BUILD_BLOB_ASN1_DER (blob : List Nat)
  | BUILD_END
  | BUILD_OTHER
deriving DecidableEq, Repr

/-- The argument loop of `openssl_pkcs7_load`: the last ASN.1 DER blob seen
wins, `BUILD_END` stops, any other builder part aborts with NULL. -/
def load_find_blob : List Nat → List builder_part_t → Option (List Nat)
  | _, builder_part_t.BUILD_BLOB_ASN1_DER b :: rest => load_find_blob b rest
  | blob, builder_part_t.BUILD_END :: _ => some blob
  | _, builder_part_t.BUILD_OTHER :: _ => none
  | _, [] => none

/-- `openssl_pkcs7_load`: collect the blob from the builder arguments; a
non-empty blob that parses yields the container, everything else NULL. -/
def openssl_pkcs7_load (env : Env) (args : List builder_part_t) :
    Option private_openssl_pkcs7_t :=
  match load_find_blob [] args with
  | none => none
  | some blob =>
    if blob.length ≠ 0 then
      match parse env blob with
      | .ok c => some c
      | .error _ => none
    else none

/-- The public container operations other than `destroy`.  None of them
assigns any field of `this` in the source. -/
inductive container_op where
  | op_get_type
  | op_get_data
  | op_get_encoding
  | op_get_attribute
  | op_create_cert_enumerator
  | op_create_signature_enumerator
deriving DecidableEq, Repr

/-- Container state after performing a public operation: every method of
the source reads `this` without writing any of its fields, so each
operation leaves the container unchanged. -/
def run_op (this : private_openssl_pkcs7_t) : container_op →
    private_openssl_pkcs7_t
  | _ => this

/-! Concrete fixtures used to evaluate the theorems on closed inputs. -/

/-- Signer accepted by `wEnv`: RSA algorithm object, resolvable signature,
matching messageDigest. -/
def wSi1 : CMS_SignerInfo := ⟨some (5, [9]), 2, 1, [⟨51, [(4, [11])]⟩], [3, 4]⟩

/-- Signer whose signature algorithm object is not RSA digest encryption. -/
def wSi2 : CMS_SignerInfo := ⟨some (5, [9]), 2, 2, [⟨51, [(4, [11])]⟩], [3, 4]⟩

/-- Signer whose raw signature no trusted candidate verifies. -/
def wSi4 : CMS_SignerInfo := ⟨some (5, [9]), 2, 1, [⟨51, [(4, [11])]⟩], [9, 9]⟩

/-- Signer with a valid signature but a mismatching messageDigest. -/
def wSi3 : CMS_SignerInfo := ⟨some (5, [9]), 2, 1, [⟨51, [(4, [12])]⟩], [3, 4]⟩

/-- Second valid signer, resolved through a different serial lookup key. -/
def wSi5 : CMS_SignerInfo := ⟨some (7, [8]), 2, 1, [⟨51, [(4, [11])]⟩], [5, 6]⟩

/-- Signer stack mixing valid and invalid signers. -/
def wSigners : List CMS_SignerInfo := [wSi1, wSi2, wSi4, wSi3, wSi5]

/-- Decoded signed-data structure with content `[10]`. -/
def wSignedCms : CMS_ContentInfo := ⟨18, some [10], some wSigners⟩

/-- Loaded signed-data container. -/
def wSignedContainer : private_openssl_pkcs7_t :=
  ⟨.CONTAINER_PKCS7_SIGNED_DATA, wSignedCms⟩

/-- Loaded plain-data container. -/
def wDataContainer : private_openssl_pkcs7_t :=
  ⟨.CONTAINER_PKCS7_DATA, ⟨17, some [10], none⟩⟩

/-- Loaded enveloped-data container. -/
def wEnvelopedContainer : private_openssl_pkcs7_t :=
  ⟨.CONTAINER_PKCS7_ENVELOPED_DATA, ⟨19, none, none⟩⟩

/-- Concrete collaborator environment: object 1 is the RSA-encryption OID,
object 2 a digest OID mapped to hash algorithm 7, the hash of a byte string
adds one to each byte, and the trust store holds candidates for the serial
keys `[9]` and `[8]`. -/
def wEnv : Env where
  known_oid := fun n =>
    if n = 1 then OID_RSA_ENCRYPTION
    else if n = 2 then 7
    else if n = 17 then OID_PKCS7_DATA
    else if n = 18 then OID_PKCS7_SIGNED_DATA
    else if n = 19 then OID_PKCS7_ENVELOPED_DATA
    else -1
  x509_name2id := fun n => if n = 0 then none else some n
  i2chunk_attr := fun a => a.obj :: (a.values.map Prod.snd).flatten
  asn1_wrap_set := fun l => 49 :: l
  trusted := fun snr =>
    if snr = [9] then [(⟨5, none⟩, 70), (⟨6, some 12⟩, 77), (⟨5, some 13⟩, 88)]
    else if snr = [8] then [(⟨7, some 14⟩, 99)]
    else []
  signature_scheme_from_oid := fun o => o.toNat
  verify := fun key scheme _attrs sig =>
    (key = 13 && scheme = 7 && sig = [3, 4]) ||
      (key = 14 && scheme = 7 && sig = [5, 6])
  hasher_algorithm_from_oid := fun o => o.toNat
  create_hasher := fun a =>
    if a = 7 then some (fun content => some (content.map (fun b => b + 1)))
    else none
  d2i_CMS := fun b =>
    if b = [2] then some wSignedCms
    else if b = [1] then some ⟨17, some [10], none⟩
    else if b = [3] then some ⟨19, none, none⟩
    else if b = [4] then some ⟨99, none, none⟩
    else none

/-! Theorems. -/

/-- C7: `get_data` returns the embedded octet-string payload exactly when
the container is plain-data or signed-data and the payload is present, and
returns no data for every enveloped-data container and every unrecognized
sub-case. -/
theorem c7_get_data_spec (c : private_openssl_pkcs7_t) :
    (∀ d, get_data c = some d ↔
      ((c.type = container_type_t.CONTAINER_PKCS7_DATA ∨
        c.type = container_type_t.CONTAINER_PKCS7_SIGNED_DATA) ∧
        c.cms.content = some d)) ∧
    (c.type = container_type_t.CONTAINER_PKCS7_ENVELOPED_DATA →
      get_data c = none) ∧
    (c.type = container_type_t.CONTAINER_OTHER → get_data c = none) := by
  obtain ⟨t, cms⟩ := c
  cases t <;> cases h : cms.content <;> simp [get_data, h]

/-- Witness for C7: a concrete enveloped-data container reports no data. -/
theorem c7_witness : get_data wEnvelopedContainer = none :=
  (c7_get_data_spec wEnvelopedContainer).2.1 rfl

/-- C8: for a container that is not signed-data,
`create_signature_enumerator` returns the empty enumerator, whose advance
always reports end-of-sequence with an unchanged state; and a signed-data
enumerator whose cursor has reached the end of the signer stack reports
end-of-sequence with an unchanged state on every subsequent call. -/
theorem c8_empty_and_exhausted (env : Env) :
    (∀ c : private_openssl_pkcs7_t,
      get_type c ≠ container_type_t.CONTAINER_PKCS7_SIGNED_DATA →
      create_signature_enumerator c = enumerator_t.empty_enum) ∧
    enumerate env .empty_enum = (.empty_enum, none) ∧
    (∀ (e : signature_enumerator_t) (signers : List CMS_SignerInfo),
      e.signers = some signers → signers.length ≤ e.i →
      signature_enumerate env e = ⟨e, none, [], []⟩) := by
  refine ⟨?_, rfl, ?_⟩
  · intro c hc
    simp only [get_type] at hc
    simp [create_signature_enumerator, hc]
  · intro e signers hs hle
    obtain ⟨s, i, a, cms⟩ := e
    simp only at hs hle
    subst hs
    simp [signature_enumerate, List.drop_eq_nil_of_le hle, enumerate_loop]

/-- Witness for C8: the plain-data container gets the empty enumerator, and
an exhausted signed-data enumerator steps to itself with no output. -/
theorem c8_witness :
    create_signature_enumerator wDataContainer = enumerator_t.empty_enum ∧
    signature_enumerate wEnv ⟨some wSigners, 5, none, wSignedCms⟩ =
      ⟨⟨some wSigners, 5, none, wSignedCms⟩, none, [], []⟩ :=
  ⟨(c8_empty_and_exhausted wEnv).1 wDataContainer (by decide),
    (c8_empty_and_exhausted wEnv).2.2 ⟨some wSigners, 5, none, wSignedCms⟩
      wSigners rfl (by decide)⟩

/-- C10: when the SignerInfo stack is absent, every advance call reports
end-of-sequence immediately, with no signer examined, nothing released and
nothing logged; and `create_signature_enumerator` on such a signed-data
container builds exactly that stackless enumerator. -/
theorem c10_absent_signers (env : Env) (e : signature_enumerator_t)
    (h : e.signers = none) :
    signature_enumerate env e = ⟨e, none, [], []⟩ ∧
    ∀ c : private_openssl_pkcs7_t,
      c.type = container_type_t.CONTAINER_PKCS7_SIGNED_DATA →
      c.cms.signerInfos = none →
      create_signature_enumerator c = .sig_enum ⟨none, 0, none, c.cms⟩ := by
  constructor
  · simp [signature_enumerate, h]
  · intro c hc hs
    simp [create_signature_enumerator, hc, hs]

/-- Witness for C10: a concrete stackless enumerator steps to itself. -/
theorem c10_witness :
    signature_enumerate wEnv ⟨none, 0, none, wSignedCms⟩ =
      ⟨⟨none, 0, none, wSignedCms⟩, none, [], []⟩ :=
  (c10_absent_signers wEnv ⟨none, 0, none, wSignedCms⟩ rfl).1

/-- C5: a blob the DER decoder rejects makes `parse` fail at its first exit
(malformed encoding) and `openssl_pkcs7_load` produce no container; a blob
that decodes to an unrecognized content-type object makes `parse` fail at
its second exit (unsupported content type) and load likewise produce no
container. -/
theorem c5_load_failures (env : Env) (blob : List Nat) :
    (env.d2i_CMS blob = none →
      parse env blob = .error ParseFailure.MalformedEncoding ∧
      openssl_pkcs7_load env
        [builder_part_t.BUILD_BLOB_ASN1_DER blob, builder_part_t.BUILD_END] =
        none) ∧
    (∀ cms, env.d2i_CMS blob = some cms →
      env.known_oid cms.type_obj ≠ OID_PKCS7_DATA →
      env.known_oid cms.type_obj ≠ OID_PKCS7_SIGNED_DATA →
      env.known_oid cms.type_obj ≠ OID_PKCS7_ENVELOPED_DATA →
      parse env blob = .error ParseFailure.UnsupportedContentType ∧
      openssl_pkcs7_load env
        [builder_part_t.BUILD_BLOB_ASN1_DER blob, builder_part_t.BUILD_END] =
        none) := by
  constructor
  · intro h
    have hp : parse env blob = .error ParseFailure.MalformedEncoding := by
      simp [parse, h]
    refine ⟨hp, ?_⟩
    by_cases hb : blob.length = 0
    · simp [openssl_pkcs7_load, load_find_blob, hb]
    · simp [openssl_pkcs7_load, load_find_blob, hb, hp]
  · intro cms h h1 h2 h3
    have hp : parse env blob = .error ParseFailure.UnsupportedContentType := by
      simp [parse, h, h1, h2, h3]
    refine ⟨hp, ?_⟩
    by_cases hb : blob.length = 0
    · simp [openssl_pkcs7_load, load_find_blob, hb]
    · simp [openssl_pkcs7_load, load_find_blob, hb, hp]

/-- Witness for C5: blob `[7]` does not decode and fails as malformed; blob
`[4]` decodes to an unknown type object and fails as unsupported; both
loads produce no container. -/
theorem c5_witness :
    (parse wEnv [7] = .error ParseFailure.MalformedEncoding ∧
      openssl_pkcs7_load wEnv
        [builder_part_t.BUILD_BLOB_ASN1_DER [7], builder_part_t.BUILD_END] =
        none) ∧
    (parse wEnv [4] = .error ParseFailure.UnsupportedContentType ∧
      openssl_pkcs7_load wEnv
        [builder_part_t.BUILD_BLOB_ASN1_DER [4], builder_part_t.BUILD_END] =
        none) :=
  ⟨(c5_load_failures wEnv [7]).1 (by decide),
    (c5_load_failures wEnv [4]).2 ⟨99, none, none⟩ (by decide) (by decide)
      (by decide) (by decide)⟩

/-- C6: a successful `parse` fixes the container's type tag from the
content-type OID (data, signed-data or enveloped-data, each reported back
by `get_type`), and no public container operation changes the container, so
the tag never changes after load. -/
theorem c6_content_type_fixed (env : Env) (blob : List Nat)
    (cms : CMS_ContentInfo) :
    (env.d2i_CMS blob = some cms →
      ((env.known_oid cms.type_obj = OID_PKCS7_DATA →
        parse env blob = .ok ⟨container_type_t.CONTAINER_PKCS7_DATA, cms⟩ ∧
        get_type ⟨container_type_t.CONTAINER_PKCS7_DATA, cms⟩ =
          container_type_t.CONTAINER_PKCS7_DATA) ∧
      (env.known_oid cms.type_obj = OID_PKCS7_SIGNED_DATA →
        parse env blob =
          .ok ⟨container_type_t.CONTAINER_PKCS7_SIGNED_DATA, cms⟩ ∧
        get_type ⟨container_type_t.CONTAINER_PKCS7_SIGNED_DATA, cms⟩ =
          container_type_t.CONTAINER_PKCS7_SIGNED_DATA) ∧
      (env.known_oid cms.type_obj = OID_PKCS7_ENVELOPED_DATA →
        parse env blob =
          .ok ⟨container_type_t.CONTAINER_PKCS7_ENVELOPED_DATA, cms⟩ ∧
        get_type ⟨container_type_t.CONTAINER_PKCS7_ENVELOPED_DATA, cms⟩ =
          container_type_t.CONTAINER_PKCS7_ENVELOPED_DATA))) ∧
    (∀ (c : private_openssl_pkcs7_t) (op : container_op),
      get_type (run_op c op) = get_type c) := by
  constructor
  · intro hd
    refine ⟨?_, ?_, ?_⟩ <;> intro ho <;>
      simp [parse, hd, ho, get_type, OID_PKCS7_DATA, OID_PKCS7_SIGNED_DATA,
        OID_PKCS7_ENVELOPED_DATA]
  · intro c op
    rfl

/-- Witness for C6: the concrete signed-data blob loads with the
signed-data tag. -/
theorem c6_witness :
    parse wEnv [2] =
      .ok ⟨container_type_t.CONTAINER_PKCS7_SIGNED_DATA, wSignedCms⟩ ∧
    get_type ⟨container_type_t.CONTAINER_PKCS7_SIGNED_DATA, wSignedCms⟩ =
      container_type_t.CONTAINER_PKCS7_SIGNED_DATA :=
  ((c6_content_type_fixed wEnv [2] wSignedCms).1 (by decide)).2.1 (by decide)

/-- Released results of a loop round always start with the previous
in-flight result: the round's cleanup destroys it first. -/
theorem enumerate_loop_cons_released (env : Env) (cms : CMS_ContentInfo)
    (si : CMS_SignerInfo) (rest : List CMS_SignerInfo) (i : Nat)
    (auth0 : Option auth_cfg_t) :
    ∃ t, (enumerate_loop env cms (si :: rest) i auth0).released =
      auth0.toList ++ t := by
  by_cases hA : env.known_oid si.signatureAlgorithm ≠ OID_RSA_ENCRYPTION
  · exact ⟨(enumerate_loop env cms rest (i + 1) none).released,
      by simp [enumerate_loop, hA]⟩
  · cases hv : verify_signature env si (env.known_oid si.digestAlgorithm) with
    | none =>
      exact ⟨(enumerate_loop env cms rest (i + 1) none).released,
        by simp [enumerate_loop, hA, hv]⟩
    | some auth =>
      by_cases hd : (verify_digest env cms si (env.known_oid si.digestAlgorithm)).1
      · exact ⟨[], by simp [enumerate_loop, hA, hv, hd]⟩
      · exact ⟨(enumerate_loop env cms rest (i + 1) (some auth)).released,
          by simp [enumerate_loop, hA, hv, hd]⟩

/-- C9: an advance call that examines a signer releases the previously
yielded in-flight result before anything else, and destroying the
enumerator releases whatever result is in flight. -/
theorem c9_at_most_one_in_flight (env : Env) (e : signature_enumerator_t)
    (signers : List CMS_SignerInfo)
    (h1 : e.signers = some signers) (h2 : e.i < signers.length) :
    (∀ a, e.auth = some a → a ∈ (signature_enumerate env e).released) ∧
    (∀ (e2 : signature_enumerator_t) (a : auth_cfg_t),
      e2.auth = some a → a ∈ signature_destroy e2) := by
  constructor
  · intro a ha
    obtain ⟨s, i, a0, cms⟩ := e
    simp only at h1 ha h2
    subst h1
    subst ha
    have hdrop := List.drop_eq_getElem_cons h2
    simp only [signature_enumerate]
    rw [hdrop]
    obtain ⟨t, ht⟩ := enumerate_loop_cons_released env cms signers[i]
      (signers.drop (i + 1)) i (some a)
    rw [ht]
    simp
  · intro e2 a ha
    simp [signature_destroy, ha]

/-- Witness for C9: a concrete in-flight result 42 is released both by an
advance that examines a signer and by destroy. -/
theorem c9_witness :
    42 ∈ (signature_enumerate wEnv
      ⟨some wSigners, 0, some 42, wSignedCms⟩).released ∧
    42 ∈ signature_destroy ⟨some wSigners, 0, some 42, wSignedCms⟩ :=
  ⟨(c9_at_most_one_in_flight wEnv ⟨some wSigners, 0, some 42, wSignedCms⟩
      wSigners rfl (by decide)).1 42 rfl,
    (c9_at_most_one_in_flight wEnv ⟨some wSigners, 0, some 42, wSignedCms⟩
      wSigners rfl (by decide)).2 ⟨some wSigners, 0, some 42, wSignedCms⟩
      42 rfl⟩

/-- C4: the digest binder succeeds exactly when the signer declares a
messageDigest attribute, the content octets are present, the digest
algorithm maps to a supported hasher, and the computed hash equals the
declared digest byte-for-byte; an unsupported algorithm logs its own
diagnostic, a mismatch logs "invalid messageDigest", and the two
diagnostics are distinct. -/
theorem c4_verify_digest_spec (env : Env) (cms : CMS_ContentInfo)
    (si : CMS_SignerInfo) (hash_oid : Int) :
    ((verify_digest env cms si hash_oid).1 = true ↔
      ∃ d content hasher,
        CMS_signed_get0_data_by_OBJ si.signedAttrs NID_pkcs9_messageDigest
          V_ASN1_OCTET_STRING = some d ∧
        cms.content = some content ∧
        env.create_hasher (env.hasher_algorithm_from_oid hash_oid) =
          some hasher ∧
        hasher content = some d) ∧
    (∀ d content,
      CMS_signed_get0_data_by_OBJ si.signedAttrs NID_pkcs9_messageDigest
        V_ASN1_OCTET_STRING = some d →
      cms.content = some content →
      env.create_hasher (env.hasher_algorithm_from_oid hash_oid) = none →
      verify_digest env cms si hash_oid =
        (false,
          [LogMsg.hashAlgNotSupported
            (env.hasher_algorithm_from_oid hash_oid)])) ∧
    (∀ d content hasher h,
      CMS_signed_get0_data_by_OBJ si.signedAttrs NID_pkcs9_messageDigest
        V_ASN1_OCTET_STRING = some d →
      cms.content = some content →
      env.create_hasher (env.hasher_algorithm_from_oid hash_oid) =
        some hasher →
      hasher content = some h → d ≠ h →
      verify_digest env cms si hash_oid =
        (false, [LogMsg.invalidMessageDigest])) ∧
    (∀ a, LogMsg.hashAlgNotSupported a ≠ LogMsg.invalidMessageDigest) := by
  refine ⟨⟨?_, ?_⟩, ?_, ?_, ?_⟩
  · intro h
    cases hmd : CMS_signed_get0_data_by_OBJ si.signedAttrs
        NID_pkcs9_messageDigest V_ASN1_OCTET_STRING with
    | none => simp [verify_digest, hmd] at h
    | some d =>
      cases hc : cms.content with
      | none => simp [verify_digest, hmd, hc] at h
      | some content =>
        cases hh : env.create_hasher (env.hasher_algorithm_from_oid hash_oid) with
        | none => simp [verify_digest, hmd, hc, hh] at h
        | some hasher =>
          cases hha : hasher content with
          | none => simp [verify_digest, hmd, hc, hh, hha] at h
          | some hv =>
            by_cases he : d = hv
            · exact ⟨d, content, hasher, rfl, rfl, rfl, by rw [hha, he]⟩
            · simp [verify_digest, hmd, hc, hh, hha, he] at h
  · rintro ⟨d, content, hasher, hmd, hc, hh, hha⟩
    simp [verify_digest, hmd, hc, hh, hha]
  · intro d content hmd hc hh
    simp [verify_digest, hmd, hc, hh]
  · intro d content hasher h hmd hc hh hha hne
    simp [verify_digest, hmd, hc, hh, hha, hne]
  · intro a hq
    exact LogMsg.noConfusion hq

/-- Witness for C4: the matching-digest signer passes the digest binder. -/
theorem c4_witness : (verify_digest wEnv wSignedCms wSi1 7).1 = true :=
  (c4_verify_digest_spec wEnv wSignedCms wSi1 7).1.mpr
    ⟨[11], [10], fun content => some (content.map (fun b => b + 1)),
      rfl, rfl, rfl, rfl⟩

/-- The candidate scan loop returns the authorization context of the first
candidate passing `candidate_ok`, and nothing otherwise. -/
theorem find_candidate_eq_find (env : Env) (issuer scheme : Nat)
    (attrs sig : List Nat) (l : List (certificate_t × auth_cfg_t)) :
    find_candidate env issuer scheme attrs sig l =
      (l.find? (candidate_ok env issuer scheme attrs sig)).map Prod.snd := by
  induction l with
  | nil => rfl
  | cons ca rest ih =>
    obtain ⟨cert, auth⟩ := ca
    by_cases hi : issuer = cert.issuer
    · subst hi
      cases hk : cert.public_key with
      | none => simp [find_candidate, List.find?_cons, candidate_ok, hk, ih]
      | some key =>
        by_cases hv : env.verify key scheme attrs sig
        · simp [find_candidate, List.find?_cons, candidate_ok, hk, hv]
        · simp [find_candidate, List.find?_cons, candidate_ok, hk, hv, ih]
    · simp [find_candidate, List.find?_cons, candidate_ok, hi, ih]

/-- C2: the resolver fails when identity extraction fails, and otherwise
returns the authorization context of the first trust-store candidate, in
enumeration order, whose issuer equals the claimed issuer and whose public
key verifies the re-encoded attribute bytes against the raw signature —
scanning no further candidates — or nothing when no candidate verifies. -/
theorem c2_resolver_first_match (env : Env) (si : CMS_SignerInfo)
    (hash_oid : Int) :
    (si.signer_id = none → verify_signature env si hash_oid = none) ∧
    (∀ name snr, si.signer_id = some (name, snr) →
      env.x509_name2id name = none →
      verify_signature env si hash_oid = none) ∧
    (∀ name snr issuer, si.signer_id = some (name, snr) →
      env.x509_name2id name = some issuer →
      verify_signature env si hash_oid =
        ((env.trusted snr).find? (candidate_ok env issuer
          (env.signature_scheme_from_oid hash_oid)
          (reencoded_attrs env si) si.signature)).map Prod.snd) := by
  refine ⟨?_, ?_, ?_⟩
  · intro h
    simp [verify_signature, h]
  · intro name snr hid hname
    simp [verify_signature, hid, hname]
  · intro name snr issuer hid hname
    simp [verify_signature, hid, hname, find_candidate_eq_find]

/-- Witness for C2: the first valid signer resolves to the first-match
candidate scan of its trusted enumeration. -/
theorem c2_witness :
    verify_signature wEnv wSi1 7 =
      ((wEnv.trusted [9]).find? (candidate_ok wEnv 5
        (wEnv.signature_scheme_from_oid 7)
        (reencoded_attrs wEnv wSi1) wSi1.signature)).map Prod.snd :=
  (c2_resolver_first_match wEnv wSi1 7).2.2 5 [9] 5 rfl rfl

/-- C3: a signer whose signature resolves but whose declared messageDigest
differs from the hash of the actual content is rejected at the digest
binding step: the loop round logs "invalid messageDigest" — distinct from
the resolution-failure diagnostic — yields nothing for that signer, and
continues with the next signer. -/
theorem c3_digest_binding_rejection (env : Env) (cms : CMS_ContentInfo)
    (si : CMS_SignerInfo) (rest : List CMS_SignerInfo) (i : Nat)
    (auth0 : Option auth_cfg_t) (auth : auth_cfg_t) (d ct h : List Nat)
    (hasher : List Nat → Option (List Nat))
    (hrsa : env.known_oid si.signatureAlgorithm = OID_RSA_ENCRYPTION)
    (hvs : verify_signature env si (env.known_oid si.digestAlgorithm) =
      some auth)
    (hmd : CMS_signed_get0_data_by_OBJ si.signedAttrs NID_pkcs9_messageDigest
      V_ASN1_OCTET_STRING = some d)
    (hct : cms.content = some ct)
    (hh : env.create_hasher (env.hasher_algorithm_from_oid
      (env.known_oid si.digestAlgorithm)) = some hasher)
    (hha : hasher ct = some h)
    (hne : d ≠ h) :
    enumerate_loop env cms (si :: rest) i auth0 =
      { enumerate_loop env cms rest (i + 1) (some auth) with
        released := auth0.toList ++
          (enumerate_loop env cms rest (i + 1) (some auth)).released,
        logs := LogMsg.invalidMessageDigest ::
          (enumerate_loop env cms rest (i + 1) (some auth)).logs } ∧
    LogMsg.invalidMessageDigest ≠ LogMsg.unableToVerifyAttrsSignature := by
  have hvd : verify_digest env cms si (env.known_oid si.digestAlgorithm) =
      (false, [LogMsg.invalidMessageDigest]) := by
    simp [verify_digest, hmd, hct, hh, hha, hne]
  refine ⟨?_, fun hq => LogMsg.noConfusion hq⟩
  simp [enumerate_loop, hrsa, hvs, hvd]

/-- Witness for C3: the mismatching-digest signer is rejected with the
digest diagnostic and the loop moves past it. -/
theorem c3_witness :
    enumerate_loop wEnv wSignedCms (wSi3 :: []) 0 none =
      { enumerate_loop wEnv wSignedCms [] 1 (some 88) with
        released := (none : Option auth_cfg_t).toList ++
          (enumerate_loop wEnv wSignedCms [] 1 (some 88)).released,
        logs := LogMsg.invalidMessageDigest ::
          (enumerate_loop wEnv wSignedCms [] 1 (some 88)).logs } ∧
    LogMsg.invalidMessageDigest ≠ LogMsg.unableToVerifyAttrsSignature :=
  c3_digest_binding_rejection wEnv wSignedCms wSi3 [] 0 none 88 [12] [10] [11]
    (fun content => some (content.map (fun b => b + 1)))
    (by decide) (by decide) (by decide) (by decide) rfl rfl (by decide)

/-- Collecting with one step of fuel unfolded respects equal step results. -/
theorem enum_results_succ_congr (env : Env) (fuel : Nat)
    (en1 en2 : enumerator_t) (h : enumerate env en1 = enumerate env en2) :
    enum_results env (fuel + 1) en1 = enum_results env (fuel + 1) en2 := by
  simp only [enum_results]
  rw [h]

/-- Counting successes: a `filterMap` has as many elements as the filter of
its domain by success. -/
theorem length_filterMap_isSome {α β : Type} (f : α → Option β) (l : List α) :
    (l.filterMap f).length = (l.filter (fun a => (f a).isSome)).length := by
  induction l with
  | nil => rfl
  | cons a l ih =>
    cases h : f a <;> simp [List.filterMap_cons, h, List.filter_cons, ih]

/-- Running the enumerator to exhaustion from a cursor collects exactly the
per-signer successes of the remaining signers, in order. -/
theorem enum_results_from_cursor (env : Env) (cms : CMS_ContentInfo)
    (signers : List CMS_SignerInfo) :
    ∀ (rest : List CMS_SignerInfo) (i : Nat) (a : Option auth_cfg_t)
      (fuel : Nat), signers.drop i = rest → rest.length < fuel →
      enum_results env fuel (.sig_enum ⟨some signers, i, a, cms⟩) =
        rest.filterMap (signer_result env cms) := by
  intro rest
  induction rest with
  | nil =>
    intro i a fuel hdrop hfuel
    obtain ⟨f, rfl⟩ : ∃ f, fuel = f + 1 := ⟨fuel - 1, by omega⟩
    simp [enum_results, enumerate, signature_enumerate, hdrop, enumerate_loop]
  | cons si rest ih =>
    intro i a fuel hdrop hfuel
    obtain ⟨f, rfl⟩ : ∃ f, fuel = f + 1 := ⟨fuel - 1, by omega⟩
    have hdrop1 : signers.drop (i + 1) = rest := by
      rw [← List.drop_drop, hdrop]
      rfl
    simp only [List.length_cons] at hfuel
    by_cases hA : env.known_oid si.signatureAlgorithm = OID_RSA_ENCRYPTION
    · cases hv : verify_signature env si (env.known_oid si.digestAlgorithm) with
      | some auth =>
        by_cases hd :
            (verify_digest env cms si (env.known_oid si.digestAlgorithm)).1
        · -- the signer yields
          have hsr : signer_result env cms si = some auth := by
            simp [signer_result, hA, hv, hd]
          have hstep : enumerate env (.sig_enum ⟨some signers, i, a, cms⟩) =
              (.sig_enum ⟨some signers, i + 1, some auth, cms⟩, some auth) := by
            simp only [enumerate, signature_enumerate]
            rw [hdrop]
            simp [enumerate_loop, hA, hv, hd]
          simp only [enum_results]
          rw [hstep, List.filterMap_cons, hsr]
          exact congrArg _ (ih (i + 1) (some auth) f hdrop1 (by omega))
        · -- digest binding fails: continue
          have hsr : signer_result env cms si = none := by
            simp [signer_result, hA, hv, hd]
          have hstep : enumerate env (.sig_enum ⟨some signers, i, a, cms⟩) =
              enumerate env (.sig_enum ⟨some signers, i + 1, some auth, cms⟩) := by
            simp only [enumerate, signature_enumerate]
            rw [hdrop, hdrop1]
            simp [enumerate_loop, hA, hv, hd]
          rw [enum_results_succ_congr env f _ _ hstep, List.filterMap_cons, hsr]
          exact ih (i + 1) (some auth) (f + 1) hdrop1 (by omega)
      | none =>
        -- signature resolution fails: continue
        have hsr : signer_result env cms si = none := by
          simp [signer_result, hA, hv]
        have hstep : enumerate env (.sig_enum ⟨some signers, i, a, cms⟩) =
            enumerate env (.sig_enum ⟨some signers, i + 1, none, cms⟩) := by
          simp only [enumerate, signature_enumerate]
          rw [hdrop, hdrop1]
          simp [enumerate_loop, hA, hv]
        rw [enum_results_succ_congr env f _ _ hstep, List.filterMap_cons, hsr]
        exact ih (i + 1) none (f + 1) hdrop1 (by omega)
    · -- unsupported signature algorithm: continue
      have hsr : signer_result env cms si = none := by
        simp [signer_result, hA]
      have hstep : enumerate env (.sig_enum ⟨some signers, i, a, cms⟩) =
          enumerate env (.sig_enum ⟨some signers, i + 1, none, cms⟩) := by
        simp only [enumerate, signature_enumerate]
        rw [hdrop, hdrop1]
        simp [enumerate_loop, hA]
      rw [enum_results_succ_congr env f _ _ hstep, List.filterMap_cons, hsr]
      exact ih (i + 1) none (f + 1) hdrop1 (by omega)

/-- C1: enumerating a signed-data container with enough fuel yields exactly
the authorization results of the individually valid signers — those passing
the algorithm check, signature resolution and digest binding — one per valid
signer, in the order the signers appear; invalid signers anywhere in the
sequence are skipped without aborting the enumeration. -/
theorem c1_enumeration_yields_exactly_valid_signers (env : Env)
    (c : private_openssl_pkcs7_t) (signers : List CMS_SignerInfo) (fuel : Nat)
    (h1 : c.type = container_type_t.CONTAINER_PKCS7_SIGNED_DATA)
    (h2 : c.cms.signerInfos = some signers)
    (h3 : signers.length < fuel) :
    enum_results env fuel (create_signature_enumerator c) =
      signers.filterMap (signer_result env c.cms) ∧
    (enum_results env fuel (create_signature_enumerator c)).length =
      (signers.filter (fun si => (signer_result env c.cms si).isSome)).length := by
  have hce : create_signature_enumerator c =
      .sig_enum ⟨some signers, 0, none, c.cms⟩ := by
    simp [create_signature_enumerator, h1, h2]
  have hmain := enum_results_from_cursor env c.cms signers signers 0 none fuel
    (by simp) h3
  rw [hce]
  exact ⟨hmain, by rw [hmain, length_filterMap_isSome]⟩

/-- Witness for C1: the five-signer fixture (two valid, three invalid, the
invalid ones interleaved) enumerates to exactly its valid signers. -/
theorem c1_witness :
    enum_results wEnv 6 (create_signature_enumerator wSignedContainer) =
      wSigners.filterMap (signer_result wEnv wSignedCms) ∧
    (enum_results wEnv 6 (create_signature_enumerator wSignedContainer)).length =
      (wSigners.filter
        (fun si => (signer_result wEnv wSignedCms si).isSome)).length :=
  c1_enumeration_yields_exactly_valid_signers wEnv wSignedContainer wSigners 6
    rfl rfl (by decide)

end OpensslPkcs7
